import Mathlib

/-!
A shallow embedding of the zapgcl logging core (`zapgcl.go`) and of the
trace-context helpers vendored from `github.com/govargo/go-logger`,
together with theorems checking the natural-language specification of the
repository against the code.

Modelling conventions:
* Go machine integers are unbounded `Int`/`Nat` with an explicit
  two's-complement wrap (`% 2^w`) at every Go conversion site;
* Go `float64`/`float32` values are modelled exactly as rationals (every
  finite IEEE-754 value is rational), with Go's integer-to-float
  conversion modelled as correct round-to-nearest-even;
* run-time panics (failed Go type assertions) are modelled by
  `Except.error`; a normal return carries the value of the single
  `return nil` statement as `none`;
* Go's string-keyed maps are association lists with unique keys; every
  observable we prove is independent of Go's unspecified map iteration
  order.
-/

deriving instance DecidableEq for Except

namespace Zapgcl

/-- Severity constants of `cloud.google.com/go/logging` (`gcl.Default` is
the unspecified severity). -/
def gclDefault : Int := 0

/-- `gcl.Debug`. -/
def gclDebug : Int := 100

/-- `gcl.Info`. -/
def gclInfo : Int := 200

/-- `gcl.Warning`. -/
def gclWarning : Int := 400

/-- `gcl.Error`. -/
def gclError : Int := 500

/-- `gcl.Critical`. -/
def gclCritical : Int := 600

/-- `zapcore.DebugLevel`. -/
def DebugLevel : Int := -1

/-- `zapcore.InfoLevel`. -/
def InfoLevel : Int := 0

/-- `zapcore.WarnLevel`. -/
def WarnLevel : Int := 1

/-- `zapcore.ErrorLevel`. -/
def ErrorLevel : Int := 2

/-- `zapcore.DPanicLevel`. -/
def DPanicLevel : Int := 3

/-- `zapcore.PanicLevel`. -/
def PanicLevel : Int := 4

/-- `zapcore.FatalLevel`. -/
def FatalLevel : Int := 5

/-- The fields of `zapdriver.HTTPPayload` (the struct `Core.Write` reads
through the `httpRequest` key). -/
structure HTTPPayload where
  RequestMethod : String
  RequestURL : String
  RequestSize : String
  Status : Int
  ResponseSize : String
  UserAgent : String
  RemoteIP : String
  ServerIP : String
  Referer : String
  Latency : String
  CacheLookup : Bool
  CacheHit : Bool
  CacheValidatedWithOriginServer : Bool
  CacheFillBytes : String
  Protocol : String
deriving DecidableEq, Repr

/-- A Go dynamic value: the possible run-time contents of an
interface-typed variable in this program.  `str` is a value of dynamic
type `string`; `stringer`/`goError` are values of some named type
implementing `fmt.Stringer`/`error`, carried as their rendering; `other`
is any further dynamic value, carried as its `fmt.Sprint` rendering. -/
inductive GoDyn where
  | str (s : String)
  | boolean (b : Bool)
  | i64 (v : Int)
  | i32 (v : Int)
  | i16 (v : Int)
  | i8 (v : Int)
  | u64 (v : Nat)
  | u32 (v : Nat)
  | u16 (v : Nat)
  | u8 (v : Nat)
  | uptr (v : Nat)
  | f64 (q : Rat)
  | f32 (q : Rat)
  | time (ns : Int) (loc : Option String)
  | location (name : String)
  | stringer (rendered : String)
  | goError (msg : String)
  | httpPayload (p : HTTPPayload)
  | nilIface
  | other (rendered : String)
deriving DecidableEq, Repr

/-- The `zapcore.FieldType` discriminators named by the `clone` switch,
plus the two commented-out ones (`namespaceTy`, `unknown`), which fall to
the default branch. -/
inductive FieldType where
  | arrayMarshaler
  | objectMarshaler
  | binary
  | boolTy
  | byteString
  | complex128
  | complex64
  | duration
  | float64Ty
  | float32Ty
  | int64Ty
  | int32Ty
  | int16Ty
  | int8Ty
  | stringTy
  | timeTy
  | uint64Ty
  | uint32Ty
  | uint16Ty
  | uint8Ty
  | uintptrTy
  | reflectTy
  | namespaceTy
  | stringerTy
  | errorTy
  | skip
  | unknown
deriving DecidableEq, Repr

/-- Models `zapcore.Field`.  `Strv` is the source's `String` member and
`Iface` its `Interface` member (both renamed because Lean reserves the
originals). -/
structure Field where
  Key : String
  Ftype : FieldType
  Integer : Int
  Strv : String
  Iface : GoDyn
deriving DecidableEq, Repr

/-- Go conversion to a signed `w`-bit integer (two's-complement wrap). -/
def toS (w : Nat) (x : Int) : Int := (x + 2 ^ (w - 1)) % 2 ^ w - 2 ^ (w - 1)

/-- Go conversion to an unsigned `w`-bit integer. -/
def toU (w : Nat) (x : Int) : Nat := (x % 2 ^ w).toNat

/-- Number of binary digits of `n`, fuel-bounded; the fuel of 128 in
`bitLen` covers every magnitude a Go `int64` can produce. -/
def bitLenAux : Nat → Nat → Nat
  | 0, _ => 0
  | fuel + 1, n => if n = 0 then 0 else bitLenAux fuel (n / 2) + 1

/-- Binary length of a natural number below `2 ^ 128`. -/
def bitLen (n : Nat) : Nat := bitLenAux 128 n

/-- Round `m` to `p` significant bits, ties to even (the IEEE-754 default
rounding). -/
def roundSig (p m : Nat) : Nat :=
  if m < 2 ^ p then m
  else
    let e := bitLen m - p
    let q := m / 2 ^ e
    let r := m % 2 ^ e
    let h := 2 ^ (e - 1)
    let q2 := if h < r || (r == h && q % 2 == 1) then q + 1 else q
    q2 * 2 ^ e

/-- The exact value of Go's numeric conversion from an integer to an
IEEE-754 binary float with a `p`-bit significand: `float64(i)` is `p = 53`
and `float32(i)` is `p = 24`; round to nearest, ties to even.  Exact for
every `int64` input (no overflow is possible at these widths). -/
def intToFloat (p : Nat) (n : Int) : Rat :=
  if n < 0 then -((roundSig p n.natAbs : Nat) : Rat) else ((roundSig p n.natAbs : Nat) : Rat)

/-- The rational value of a finite IEEE-754 double given its 64 raw bits
(`math.Float64frombits`); the non-finite encodings (exponent 2047) are
mapped to 0, which nothing here exercises.  This is the
specification-side decoder, used to compare against the numeric
conversion the code actually performs on float fields. -/
def float64FromBits (b : Nat) : Rat :=
  let sgn : Nat := b / 2 ^ 63
  let e : Nat := b / 2 ^ 52 % 2 ^ 11
  let m : Nat := b % 2 ^ 52
  let mag : Rat :=
    if e = 0 then ((m : Nat) : Rat) / ((2 ^ 1074 : Nat) : Rat)
    else if e = 2047 then 0
    else ((2 ^ 52 + m : Nat) : Rat) * ((2 ^ e : Nat) : Rat) / ((2 ^ 1075 : Nat) : Rat)
  if sgn = 1 then -mag else mag

/-- One run of Go's `time.fmtFrac`: print `prec` fractional digits of `u`
(least significant first, trailing zeros omitted, a leading `.` if
anything was printed), returning the printed characters and the remaining
integer part. -/
def fmtFracAux : Nat → Nat → Bool → List Char → List Char × Nat
  | 0, u, pr, acc => ((if pr then '.' :: acc else acc), u)
  | p + 1, u, pr, acc =>
    let d := u % 10
    let pr2 := pr || d != 0
    let acc2 := if pr2 then Char.ofNat (48 + d) :: acc else acc
    fmtFracAux p (u / 10) pr2 acc2

/-- Models Go's `time.Duration.String()` (the canonical rendering `clone`
stores for duration fields): "0s" for zero; ns/µs/ms with the appropriate
fraction below one second; otherwise seconds with a 9-digit fraction,
then minutes and hours. -/
def goDurationString (n : Int) : String :=
  let u := n.natAbs
  let sgn := if n < 0 then "-" else ""
  if u = 0 then "0s"
  else if u < 1000000000 then
    if u < 1000 then sgn ++ toString u ++ "ns"
    else if u < 1000000 then
      let fr := fmtFracAux 3 u false []
      sgn ++ toString fr.2 ++ String.mk fr.1 ++ "µs"
    else
      let fr := fmtFracAux 6 u false []
      sgn ++ toString fr.2 ++ String.mk fr.1 ++ "ms"
  else
    let fr := fmtFracAux 9 u false []
    let secs := fr.2
    let base := toString (secs % 60) ++ String.mk fr.1 ++ "s"
    let mins := secs / 60
    if mins = 0 then sgn ++ base
    else
      let base2 := toString (mins % 60) ++ "m" ++ base
      let hrs := mins / 60
      if hrs = 0 then sgn ++ base2 else sgn ++ toString hrs ++ "h" ++ base2

/-- Models `fmt.Sprint` on the dynamic values this embedding
distinguishes; an `other` value carries its own rendering.  In the source
`fmt.Sprint` is only reached for complex-typed fields, whose values are
modelled by `other`. -/
def goSprint : GoDyn → String
  | .str s => s
  | .boolean b => if b then "true" else "false"
  | .i64 v => toString v
  | .i32 v => toString v
  | .i16 v => toString v
  | .i8 v => toString v
  | .u64 v => toString v
  | .u32 v => toString v
  | .u16 v => toString v
  | .u8 v => toString v
  | .uptr v => toString v
  | .f64 _ => "(float64)"
  | .f32 _ => "(float32)"
  | .time _ _ => "(time)"
  | .location name => name
  | .stringer s => s
  | .goError m => m
  | .httpPayload _ => "(httpPayload)"
  | .nilIface => "<nil>"
  | .other s => s

/-- The run-time panic raised by a failed Go type assertion (both
assertion sites are modelled with this one message, which makes every
result independent of Go's unspecified map iteration order). -/
def interfaceConversionPanic : String := "panic: interface conversion"

/-- The per-field value classification performed by `clone`
(zapgcl.go:332-393): one case per `zapcore` field type.  `ok none` is the
skip marker; a failed type assertion (stringer, error, time-location)
surfaces as `Except.error`. -/
def classify (f : Field) : Except String (Option GoDyn) :=
  match f.Ftype with
  | .arrayMarshaler => .ok (some f.Iface)
  | .objectMarshaler => .ok (some f.Iface)
  | .binary => .ok (some f.Iface)
  | .boolTy => .ok (some (.boolean (f.Integer == 1)))
  | .byteString => .ok (some (.str f.Strv))
  | .complex128 => .ok (some (.str (goSprint f.Iface)))
  | .complex64 => .ok (some (.str (goSprint f.Iface)))
  | .duration => .ok (some (.str (goDurationString f.Integer)))
  | .float64Ty => .ok (some (.f64 (intToFloat 53 f.Integer)))
  | .float32Ty => .ok (some (.f32 (intToFloat 24 f.Integer)))
  | .int64Ty => .ok (some (.i64 f.Integer))
  | .int32Ty => .ok (some (.i32 (toS 32 f.Integer)))
  | .int16Ty => .ok (some (.i16 (toS 16 f.Integer)))
  | .int8Ty => .ok (some (.i8 (toS 8 f.Integer)))
  | .stringTy => .ok (some (.str f.Strv))
  | .timeTy =>
    match f.Iface with
    | .nilIface => .ok (some (.time f.Integer none))
    | .location name => .ok (some (.time f.Integer (some name)))
    | _ => .error interfaceConversionPanic
  | .uint64Ty => .ok (some (.u64 (toU 64 f.Integer)))
  | .uint32Ty => .ok (some (.u32 (toU 32 f.Integer)))
  | .uint16Ty => .ok (some (.u16 (toU 16 f.Integer)))
  | .uint8Ty => .ok (some (.u8 (toU 8 f.Integer)))
  | .uintptrTy => .ok (some (.uptr (toU 64 f.Integer)))
  | .reflectTy => .ok (some f.Iface)
  | .namespaceTy => .ok (some f.Iface)
  | .stringerTy =>
    match f.Iface with
    | .stringer s => .ok (some (.str s))
    | _ => .error interfaceConversionPanic
  | .errorTy =>
    match f.Iface with
    | .goError m => .ok (some (.str m))
    | _ => .error interfaceConversionPanic
  | .skip => .ok none
  | .unknown => .ok (some f.Iface)

/-- A Go string-keyed map of dynamic values, as an association list with
unique keys. -/
abbrev FieldMap := List (String × GoDyn)

/-- Go map indexing `m[k]`. -/
def getVal : FieldMap → String → Option GoDyn
  | [], _ => none
  | kv :: rest, k => if kv.1 = k then some kv.2 else getVal rest k

/-- Go map assignment `m[k] = v` on the association-list
representation. -/
def upsert : FieldMap → String → GoDyn → FieldMap
  | [], k, v => [(k, v)]
  | kv :: rest, k, v => if kv.1 = k then (k, v) :: rest else kv :: upsert rest k v

/-- `clone` (zapgcl.go:325-397): copy `orig`, then fold the classified
fields over it, later fields overwriting earlier ones on key collision; a
skip field contributes nothing; a classification panic aborts.  The copy
of `orig` is the identity on this persistent representation, which is
exactly the source's non-mutation contract. -/
def clone : FieldMap → List Field → Except String FieldMap
  | m, [] => .ok m
  | m, f :: rest =>
    match classify f with
    | .error e => .error e
    | .ok none => clone m rest
    | .ok (some v) => clone (upsert m f.Key v) rest

/-- The classification of the last non-skip, successfully classified
field with key `k` in a field list, if any: the value that field
contributes to a derived map. -/
def classifiedAt : List Field → String → Option GoDyn
  | [], _ => none
  | f :: rest, k =>
    match classifiedAt rest k with
    | some v => some v
    | none =>
      match classify f with
      | .ok (some v) => if f.Key = k then some v else none
      | _ => none

/-- Left-biased choice on optional values (`a` overrides `b`). -/
def pick : Option GoDyn → Option GoDyn → Option GoDyn
  | some v, _ => some v
  | none, b => b

/-- Models `zapgcl.Core` (zapgcl.go:157-174).  The Google Cloud logger
handle is not part of the tracked state: the entry `Write` hands to
`Logger.Log` is returned as `Write`'s modelled output instead.  A severity
mapping is a Go map from level to severity, modelled as its lookup
function. -/
structure Core where
  SeverityMapping : Int → Option Int
  MinLevel : Int
  fields : FieldMap

/-- `DefaultSeverityMapping` (zapgcl.go:314-322). -/
def DefaultSeverityMapping : Int → Option Int := fun l =>
  if l = DebugLevel then some gclDebug
  else if l = InfoLevel then some gclInfo
  else if l = WarnLevel then some gclWarning
  else if l = ErrorLevel then some gclError
  else if l = DPanicLevel then some gclCritical
  else if l = PanicLevel then some gclCritical
  else if l = FatalLevel then some gclCritical
  else none

/-- `Core.Enabled` (zapgcl.go:200-202): `l >= c.MinLevel`. -/
def coreEnabled (c : Core) (l : Int) : Bool := c.MinLevel ≤ l

/-- `Core.With` (zapgcl.go:205-212): a new core with the same mapping and
minimum level and `fields = clone(c.fields, newFields)`. -/
def coreWith (c : Core) (newFields : List Field) : Except String Core :=
  match clone c.fields newFields with
  | .error e => .error e
  | .ok m => .ok { SeverityMapping := c.SeverityMapping, MinLevel := c.MinLevel, fields := m }

/-- Caller information of a `zapcore.Entry`; `FuncName` stands for the
name `runtime.FuncForPC(Caller.PC).Name()` resolves to. -/
structure EntryCaller where
  Defined : Bool
  File : String
  Line : Int
  FuncName : String
deriving DecidableEq, Repr

/-- Models `zapcore.Entry` (`Time` is an opaque instant). -/
structure Entry where
  Level : Int
  Time : Int
  LoggerName : String
  Message : String
  Caller : EntryCaller
  Stack : String
deriving DecidableEq, Repr

/-- Error classification of `strconv.ParseInt(s, 10, 64)`: syntax error,
or range error below/above the representable interval. -/
inductive PErr where
  | syn
  | rangeNeg
  | rangePos
deriving DecidableEq, Repr

/-- Models `strconv.ParseInt(s, 10, 64)`: an optional sign followed by at
least one decimal digit, value within the signed 64-bit range. -/
def parseInt64res (s : String) : Except PErr Int :=
  let cs := s.toList
  let sgn : Bool × List Char :=
    match cs with
    | '+' :: tl => (false, tl)
    | '-' :: tl => (true, tl)
    | _ => (false, cs)
  let ds := sgn.2
  if ds.isEmpty || !ds.all Char.isDigit then .error .syn
  else
    let n : Nat := ds.foldl (fun a c => a * 10 + (c.toNat - 48)) 0
    if sgn.1 then
      if n > 2 ^ 63 then .error .rangeNeg else .ok (-(n : Int))
    else if n ≥ 2 ^ 63 then .error .rangePos
    else .ok (n : Int)

/-- The value Go's `strconv.ParseInt(s, 10, 64)` returns alongside any
error: the parsed value on success, 0 on a syntax error, the clamped
extreme int64 on a range error.  `Core.Write` discards the error with
`_` and keeps this value. -/
def parseInt64val (s : String) : Int :=
  match parseInt64res s with
  | .ok v => v
  | .error .syn => 0
  | .error .rangeNeg => -(2 ^ 63)
  | .error .rangePos => 2 ^ 63 - 1

/-- Go `time.leadingInt`: consume leading decimal digits into a value,
failing on 64-bit overflow. -/
def leadingIntAux : Nat → List Char → Option (Nat × List Char)
  | x, [] => some (x, [])
  | x, c :: tl =>
    if c.isDigit then
      if x > (2 ^ 63 - 1) / 10 then none
      else
        let x2 := x * 10 + (c.toNat - 48)
        if x2 > 2 ^ 63 - 1 then none else leadingIntAux x2 tl
    else some (x, c :: tl)

/-- Go `time.leadingFraction`: consume fractional digits into a value and
a scale, silently ignoring digits once the value would overflow. -/
def leadingFracAux : Nat → Nat → Bool → List Char → Nat × Nat × List Char
  | f, scale, _, [] => (f, scale, [])
  | f, scale, overflow, c :: tl =>
    if c.isDigit then
      if overflow then leadingFracAux f scale overflow tl
      else if f > (2 ^ 63 - 1) / 10 then leadingFracAux f scale true tl
      else
        let y := f * 10 + (c.toNat - 48)
        if y > 2 ^ 63 - 1 then leadingFracAux f scale true tl
        else leadingFracAux y (scale * 10) overflow tl
    else (f, scale, c :: tl)

/-- The unit table of Go `time.ParseDuration`, in nanoseconds. -/
def unitMap (u : String) : Option Nat :=
  if u = "ns" then some 1
  else if u = "us" then some 1000
  else if u = "µs" then some 1000
  else if u = "μs" then some 1000
  else if u = "ms" then some 1000000
  else if u = "s" then some 1000000000
  else if u = "m" then some 60000000000
  else if u = "h" then some 3600000000000
  else none

/-- One number-unit component of a duration: consume the unit name,
convert, and add to the running total, with Go's overflow checks. -/
def durUnitStep (d v f scale : Nat) (rest2 : List Char) : Option (Nat × List Char) :=
  let uchars := rest2.takeWhile (fun ch => !(ch == '.' || ch.isDigit))
  let rest3 := rest2.drop uchars.length
  if uchars.isEmpty then none
  else
    match unitMap (String.mk uchars) with
    | none => none
    | some unit =>
      if v > (2 ^ 63 - 1) / unit then none
      else
        let v2 := v * unit + f * unit / scale
        if v2 > 2 ^ 63 - 1 then none
        else
          let d2 := d + v2
          if d2 > 2 ^ 63 - 1 then none else some (d2, rest3)

/-- The component loop of Go `time.ParseDuration`; the fuel is bounded by
the input length plus one, and every iteration consumes at least one
character, so the fuel never runs out on the initial call. -/
def durLoop : Nat → Nat → List Char → Option Nat
  | _, d, [] => some d
  | 0, _, _ => none
  | fuel + 1, d, c :: cs0 =>
    if !(c == '.' || c.isDigit) then none
    else
      match leadingIntAux 0 (c :: cs0) with
      | none => none
      | some vrest =>
        let v := vrest.1
        let rest := vrest.2
        let pre := rest.length != (c :: cs0).length
        let afterFrac : Nat × Nat × List Char × Bool :=
          match rest with
          | '.' :: tl =>
            let r := leadingFracAux 0 1 false tl
            (r.1, r.2.1, r.2.2, r.2.2.length != tl.length)
          | _ => (0, 1, rest, false)
        let f := afterFrac.1
        let scale := afterFrac.2.1
        let rest2 := afterFrac.2.2.1
        let post := afterFrac.2.2.2
        if !pre && !post then none
        else
          match durUnitStep d v f scale rest2 with
          | none => none
          | some dr => durLoop fuel dr.1 dr.2

/-- Models Go `time.ParseDuration` (exact rational arithmetic replaces
the float64 multiplication Go uses for the fractional part; no result
proved here observes the difference).  `none` models a parse error, for
which Go returns a zero duration. -/
def parseDuration (s : String) : Option Int :=
  let cs := s.toList
  let sgn : Bool × List Char :=
    match cs with
    | '-' :: tl => (true, tl)
    | '+' :: tl => (false, tl)
    | _ => (false, cs)
  if sgn.2 = ['0'] then some 0
  else if sgn.2.isEmpty then none
  else
    match durLoop (sgn.2.length + 1) 0 sgn.2 with
    | none => none
    | some d => some (if sgn.1 then -(d : Int) else (d : Int))

/-- The duration value `Core.Write` keeps after discarding the parse
error: Go returns 0 on every error path of `time.ParseDuration`. -/
def parseDurationVal (s : String) : Int := (parseDuration s).getD 0

/-- Go's `ishex`. -/
def isGoHex (c : Char) : Bool :=
  ('0' ≤ c && c ≤ '9') || ('a' ≤ c && c ≤ 'f') || ('A' ≤ c && c ≤ 'F')

/-- Validity scan behind the modelled `net/url.Parse`: no ASCII control
characters, every `%` followed by two hexadecimal digits. -/
def urlOKAux : List Char → Bool
  | [] => true
  | '%' :: a :: b :: tl => isGoHex a && isGoHex b && urlOKAux tl
  | '%' :: _ => false
  | c :: tl => !(c.toNat < 32 || c.toNat == 127) && urlOKAux tl

/-- Models `net/url.Parse` restricted to its two relevant failure
conditions (ASCII control characters in the URL, invalid
percent-escapes); a successfully parsed URL is kept as its raw string,
which is all `Core.Write` propagates. -/
def urlParse (s : String) : Option String :=
  if urlOKAux s.toList then some s else none

/-- The subset of `gcl.HTTPRequest` (plus the embedded `http.Request`
data) that `Core.Write` populates: `Method`, `URL`, `UserAgent` and
`Referer` model the built request and its two headers; `URL = none` is a
nil request URL. -/
structure GclHTTPRequest where
  Method : String
  URL : Option String
  UserAgent : String
  Referer : String
  RequestSize : Int
  Status : Int
  ResponseSize : Int
  Latency : Int
  LocalIP : String
  RemoteIP : String
  CacheHit : Bool
  CacheValidatedWithOriginServer : Bool
deriving DecidableEq, Repr

/-- The `gcl.HTTPRequest` value `Core.Write` builds from a
`zapdriver.HTTPPayload` (zapgcl.go:260-281): the two sizes and the
latency keep whatever value the parser returned with its discarded
error; a URL parse error leaves the request URL nil. -/
def buildHTTPRequest (p : HTTPPayload) : GclHTTPRequest where
  Method := p.RequestMethod
  URL := urlParse p.RequestURL
  UserAgent := p.UserAgent
  Referer := p.Referer
  RequestSize := parseInt64val p.RequestSize
  Status := p.Status
  ResponseSize := parseInt64val p.ResponseSize
  Latency := parseDurationVal p.Latency
  LocalIP := p.ServerIP
  RemoteIP := p.RemoteIP
  CacheHit := p.CacheHit
  CacheValidatedWithOriginServer := p.CacheValidatedWithOriginServer

/-- `logpb.LogEntrySourceLocation` as populated from the entry's
caller. -/
structure SourceLocation where
  File : String
  Line : Int
  Function : String
deriving DecidableEq, Repr

/-- The parts of a `gcl.Entry` that `Core.Write` populates. -/
structure GclEntry where
  Timestamp : Int
  Severity : Int
  Payload : FieldMap
  LogName : String
  Labels : List (String × String)
  HTTPRequest : Option GclHTTPRequest
  InsertID : String
  SourceLocation : Option SourceLocation
deriving DecidableEq, Repr

/-- What a terminating call of `Core.Write` produces: the entry handed to
`Logger.Log` and the Go error result.  `return nil` is the source's only
return statement, modelled as `returned = none`. -/
structure WriteOutput where
  entry : GclEntry
  returned : Option String
deriving DecidableEq, Repr

/-- `InsertIDKey` (zapgcl.go:49). -/
def InsertIDKey : String := "logging.googleapis.com/insertId"

/-- The Go type assertion `v.(string)`: succeeds exactly on dynamic type
`string`. -/
def valAsString : GoDyn → Option String
  | .str s => some s
  | _ => none

/-- The Go type assertion `v.(*zapdriver.HTTPPayload)`. -/
def valAsHTTP : GoDyn → Option HTTPPayload
  | .httpPayload p => some p
  | _ => none

/-- `strings.HasPrefix(k, "labels.")`, computed on the character-list
view of the string. -/
def isLabelKey (k : String) : Bool := "labels.".toList.isPrefixOf k.toList

/-- The label name `k[7:]`: the key with the seven characters of
`labels.` removed. -/
def labelSuffix (k : String) : String := String.mk (k.toList.drop 7)

/-- Some `labels.`-prefixed key holds a value for which the label
assertion `v.(string)` fails. -/
def badLabel (m : FieldMap) : Bool :=
  m.any (fun kv => isLabelKey kv.1 && (valAsString kv.2).isNone)

/-- The `httpRequest` key holds a value for which the assertion
`v.(*zapdriver.HTTPPayload)` fails. -/
def badHTTP (m : FieldMap) : Bool :=
  m.any (fun kv => kv.1 == "httpRequest" && (valAsHTTP kv.2).isNone)

/-- The payload left over after the extraction loop (every `labels.` key
and the `httpRequest` key deleted) and the unconditional
`delete(payload, InsertIDKey)`. -/
def finalPayload (m : FieldMap) : FieldMap :=
  m.filter (fun kv => !isLabelKey kv.1 && kv.1 != "httpRequest" && kv.1 != InsertIDKey)

/-- The labels sub-map: every `labels.`-prefixed key moved under its
suffix (`k[7:]`), coerced by the `v.(string)` assertion. -/
def extractLabels (m : FieldMap) : List (String × String) :=
  m.filterMap (fun kv =>
    if isLabelKey kv.1 then
      match valAsString kv.2 with
      | some s => some (labelSuffix kv.1, s)
      | none => none
    else none)

/-- The payload after steps 3 and 4 of the write protocol: the stack
inserted under `stack` when non-empty, then the message inserted
unconditionally under `message` (zapgcl.go:237-240). -/
def paddedPayload (ze : Entry) (payload0 : FieldMap) : FieldMap :=
  upsert (if ze.Stack = "" then payload0 else upsert payload0 "stack" (.str ze.Stack))
    "message" (.str ze.Message)

/-- The `gcl.Entry` `Core.Write` assembles from the padded payload
(zapgcl.go:242-298): severity from the core's mapping with `gcl.Default`
for unmapped levels; the extraction loop moves labels and the HTTP
payload out of the payload; the insert id is taken only when it is a
string (an empty one leaves the zero value, which is also empty); the
caller becomes the source location. -/
def mkGclEntry (c : Core) (ze : Entry) (payload2 : FieldMap) : GclEntry where
  Timestamp := ze.Time
  Severity := (c.SeverityMapping ze.Level).getD gclDefault
  Payload := finalPayload payload2
  LogName := ze.LoggerName
  Labels := extractLabels payload2
  HTTPRequest :=
    match getVal payload2 "httpRequest" with
    | some v => (valAsHTTP v).map buildHTTPRequest
    | none => none
  InsertID :=
    match getVal payload2 InsertIDKey with
    | some (.str s) => s
    | _ => ""
  SourceLocation :=
    if ze.Caller.Defined then
      some { File := ze.Caller.File, Line := ze.Caller.Line, Function := ze.Caller.FuncName }
    else none

/-- `Core.Write` (zapgcl.go:229-302).  Payload from `clone`; stack and
message inserted (the message unconditionally, overwriting any caller
field of that name); the extraction loop aborts with a panic when a type
assertion on a label value or the HTTP payload fails; otherwise the
assembled entry is handed to `Logger.Log` and `nil` is returned. -/
def coreWrite (c : Core) (ze : Entry) (newFields : List Field) : Except String WriteOutput :=
  match clone c.fields newFields with
  | .error e => .error e
  | .ok payload0 =>
    if badLabel (paddedPayload ze payload0) || badHTTP (paddedPayload ze payload0) then
      .error interfaceConversionPanic
    else .ok { entry := mkGclEntry c ze (paddedPayload ze payload0), returned := none }

/-- An arbitrary `zapcore.Core` seen through the only method `Tee`
consults on it. -/
structure ZCore where
  enabled : Int → Bool

/-- The seven zap levels in the order the `Tee` scan visits them. -/
def levelsList : List Int := [-1, 0, 1, 2, 3, 4, 5]

/-- The `MinLevel` scan in `Tee` (zapgcl.go:189-194): the first level the
base core enables, or `0` (Info, the struct zero value) if it enables
none of the seven. -/
def teeMinLevel (zc : ZCore) : Int := (levelsList.find? zc.enabled).getD 0

/-- The Stackdriver core `Tee` constructs (zapgcl.go:184-194). -/
def teeGc (zc : ZCore) : Core :=
  { SeverityMapping := DefaultSeverityMapping, MinLevel := teeMinLevel zc, fields := [] }

/-- Models `zapcore.NewTee(zc, gc)` from go.uber.org/zap: the composite
is enabled at a level iff any child is. -/
def teeEnabled (zc : ZCore) (gc : Core) (l : Int) : Bool :=
  zc.enabled l || coreEnabled gc l

/-- Whether `Core.Check` (zapgcl.go:215-220) routes an entry at level `l`
to the Stackdriver core: it adds the core exactly when `Enabled`. -/
def gcDelivers (gc : Core) (l : Int) : Bool := coreEnabled gc l

/-- A core whose enabled set is an upward-closed threshold, the shape
every standard zap core has. -/
def thresholdCore (t : Int) : ZCore := { enabled := fun l => t ≤ l }

/-- The character class `[a-f\d]` of the vendored trace regex. -/
def isHexLowerDigit (c : Char) : Bool := ('a' ≤ c && c ≤ 'f') || c.isDigit

/-- Models `deconstructXCloudTraceContext` (vendor middleware.go:50-60):
the effect of matching the anchored chain of optional greedy groups
`([a-f\d]+)? (?:/([a-f\d]+))? (?:;o=(\d))?` at the start of the header
(each group participates only when its mandatory characters follow in
sequence), with a span of "0" normalized to the empty string and sampled
true exactly when the third group captures "1". -/
def deconstructXCloudTraceContext (s : String) : String × String × Bool :=
  let cs := s.toList
  let tid := cs.takeWhile isHexLowerDigit
  let rest := cs.drop tid.length
  let spanRest : List Char × List Char :=
    match rest with
    | '/' :: tl =>
      let d := tl.takeWhile isHexLowerDigit
      if d.isEmpty then ([], rest) else (d, tl.drop d.length)
    | _ => ([], rest)
  let sampled : Bool :=
    match spanRest.2 with
    | ';' :: 'o' :: '=' :: c :: _ => if c.isDigit then c == '1' else false
    | _ => false
  let spanID := String.mk spanRest.1
  (String.mk tid, if spanID = "0" then "" else spanID, sampled)

/-- `traceKey` (vendor trace.go:12). -/
def traceKey : String := "logging.googleapis.com/trace"

/-- `spanKey` (vendor trace.go:13). -/
def spanKey : String := "logging.googleapis.com/spanId"

/-- `traceSampledKey` (vendor trace.go:14). -/
def traceSampledKey : String := "logging.googleapis.com/trace_sampled"

/-- `addCloudLoggingFields` (vendor trace.go:19-23): `zap.String` with
the formatted trace resource name, `zap.String` with the span id, and
`zap.Bool` with the sampled flag (zap stores a bool as integer 1/0). -/
def addCloudLoggingFields (trace spanId : String) (sampled : Bool) (projectName : String) :
    Field × Field × Field :=
  ({ Key := traceKey, Ftype := .stringTy, Integer := 0,
     Strv := "projects/" ++ projectName ++ "/traces/" ++ trace, Iface := .nilIface },
   { Key := spanKey, Ftype := .stringTy, Integer := 0, Strv := spanId, Iface := .nilIface },
   { Key := traceSampledKey, Ftype := .boolTy, Integer := if sampled then 1 else 0,
     Strv := "", Iface := .nilIface })

/-- The integer width variants the field classifier handles. -/
inductive IntWidth where
  | i8
  | i16
  | i32
  | i64
  | u8
  | u16
  | u32
  | u64
  | uptrW
deriving DecidableEq, Repr

/-- The `zapcore` field type of each integer width. -/
def widthFieldType : IntWidth → FieldType
  | .i8 => .int8Ty
  | .i16 => .int16Ty
  | .i32 => .int32Ty
  | .i64 => .int64Ty
  | .u8 => .uint8Ty
  | .u16 => .uint16Ty
  | .u32 => .uint32Ty
  | .u64 => .uint64Ty
  | .uptrW => .uintptrTy

/-- The representable range of each width. -/
def inRange : IntWidth → Int → Prop
  | .i8 => fun v => -(2 ^ 7) ≤ v ∧ v < 2 ^ 7
  | .i16 => fun v => -(2 ^ 15) ≤ v ∧ v < 2 ^ 15
  | .i32 => fun v => -(2 ^ 31) ≤ v ∧ v < 2 ^ 31
  | .i64 => fun v => -(2 ^ 63) ≤ v ∧ v < 2 ^ 63
  | .u8 => fun v => 0 ≤ v ∧ v < 2 ^ 8
  | .u16 => fun v => 0 ≤ v ∧ v < 2 ^ 16
  | .u32 => fun v => 0 ≤ v ∧ v < 2 ^ 32
  | .u64 => fun v => 0 ≤ v ∧ v < 2 ^ 64
  | .uptrW => fun v => 0 ≤ v ∧ v < 2 ^ 64

/-- The field the zap constructor of each width builds from an in-range
value `v`: `zap.Int8/…/Uintptr` all store `int64(v)`, the
two's-complement image of `v` in 64 bits. -/
def mkIntField (w : IntWidth) (k : String) (v : Int) : Field :=
  { Key := k, Ftype := widthFieldType w, Integer := toS 64 v, Strv := "", Iface := .nilIface }

/-- The classified value the round-trip claim expects: the same numeric
value at the stated width. -/
def widthVal : IntWidth → Int → GoDyn
  | .i8 => fun v => .i8 v
  | .i16 => fun v => .i16 v
  | .i32 => fun v => .i32 v
  | .i64 => fun v => .i64 v
  | .u8 => fun v => .u8 v.toNat
  | .u16 => fun v => .u16 v.toNat
  | .u32 => fun v => .u32 v.toNat
  | .u64 => fun v => .u64 v.toNat
  | .uptrW => fun v => .uptr v.toNat

/-- An empty-context core with the default severity mapping, enabled for
everything (used by the concrete scenarios). -/
def plainCore : Core :=
  { SeverityMapping := DefaultSeverityMapping, MinLevel := -1, fields := [] }

/-- An entry at level `lvl` carrying only a message. -/
def mkEntry (lvl : Int) (msg : String) : Entry :=
  { Level := lvl, Time := 0, LoggerName := "", Message := msg,
    Caller := { Defined := false, File := "", Line := 0, FuncName := "" }, Stack := "" }

/-- A `zap.String` field. -/
def strField (k s : String) : Field :=
  { Key := k, Ftype := .stringTy, Integer := 0, Strv := s, Iface := .nilIface }

/-- A `zapdriver.HTTP` field: `zap.Object("httpRequest", payload)`
carries the payload pointer in the interface slot. -/
def httpField (p : HTTPPayload) : Field :=
  { Key := "httpRequest", Ftype := .objectMarshaler, Integer := 0, Strv := "",
    Iface := .httpPayload p }

/-- Indexing after assignment: the assigned key reads the new value,
every other key is untouched. -/
theorem getVal_upsert (m : FieldMap) (k2 : String) (v : GoDyn) (k : String) :
    getVal (upsert m k2 v) k = if k2 = k then some v else getVal m k := by
  induction m with
  | nil =>
    by_cases h : k2 = k <;> simp [upsert, getVal, h]
  | cons kv rest ih =>
    by_cases h1 : kv.1 = k2
    · by_cases h2 : k2 = k
      · simp [upsert, getVal, h1, h2]
      · have h3 : ¬kv.1 = k := fun hh => h2 (h1.symm.trans hh)
        simp [upsert, getVal, h1, h2, h3]
    · by_cases h2 : kv.1 = k
      · have h3 : ¬k2 = k := fun he => h1 (h2.trans he.symm)
        have h4 : ¬k = k2 := fun he => h3 he.symm
        simp [upsert, getVal, h1, h2, h3, h4]
      · simp [upsert, getVal, h1, h2, ih]

/-- Characterization of `clone`: the derived map reads, at every key, the
last field of the list classified to that key, and otherwise the original
map.  (Non-mutation of the original is definitional here: `clone` builds
a new list.) -/
theorem clone_ok_getVal (fs : List Field) (m M : FieldMap) (h : clone m fs = .ok M)
    (k : String) : getVal M k = pick (classifiedAt fs k) (getVal m k) := by
  induction fs generalizing m with
  | nil =>
    cases h
    simp [classifiedAt, pick]
  | cons f rest ih =>
    unfold clone at h
    cases hc : classify f with
    | error e => rw [hc] at h; cases h
    | ok o =>
      rw [hc] at h
      cases o with
      | none =>
        have := ih m h
        unfold classifiedAt
        cases hr : classifiedAt rest k with
        | some w => simpa [hr, pick] using this
        | none => simpa [hr, hc, pick] using this
      | some v =>
        have := ih (upsert m f.Key v) h
        rw [getVal_upsert] at this
        unfold classifiedAt
        cases hr : classifiedAt rest k with
        | some w => simpa [hr, pick] using this
        | none =>
          rw [hr] at this
          by_cases hk : f.Key = k <;> simp [hr, hc, hk, pick] at this ⊢ <;> exact this

/-- C3: deriving a field map with `F1` and then `F2` (via `clone`) yields
a map that reads, at every key, the last classified field of `F2` with
that key, else the last classified field of `F1`, else the parent `P`:
every key of `P` not overridden by `F1` or `F2` survives, every key of
`F1` not overridden by `F2` survives, every key of `F2` is present, later
keys overwriting earlier ones on collision.  `P` itself is unchanged by
both calls: `clone` only reads its arguments and builds a new list, so
non-mutation is definitional in this embedding. -/
theorem clone_derive_characterization (P M1 M2 : FieldMap) (F1 F2 : List Field)
    (h1 : clone P F1 = .ok M1) (h2 : clone M1 F2 = .ok M2) (k : String) :
    getVal M2 k = pick (classifiedAt F2 k) (pick (classifiedAt F1 k) (getVal P k)) := by
  rw [clone_ok_getVal F2 M1 M2 h2 k, clone_ok_getVal F1 P M1 h1 k]

/-- Witness for C3 at concrete inputs: the parent key `a` is overridden
by `F1`, the `F1` key `b` is overridden by `F2`, and the parent key `c`
survives both derivations. -/
theorem clone_derive_characterization_witness :
    getVal [("a", .str "f1a"), ("c", .str "pc"), ("b", .str "f2b")] "b"
        = pick (classifiedAt [strField "b" "f2b"] "b")
            (pick (classifiedAt [strField "a" "f1a", strField "b" "f1b"] "b")
              (getVal [("a", .str "pa"), ("c", .str "pc")] "b")) ∧
    getVal [("a", .str "f1a"), ("c", .str "pc"), ("b", .str "f2b")] "c"
        = pick (classifiedAt [strField "b" "f2b"] "c")
            (pick (classifiedAt [strField "a" "f1a", strField "b" "f1b"] "c")
              (getVal [("a", .str "pa"), ("c", .str "pc")] "c")) := by
  constructor
  · exact clone_derive_characterization
      [("a", .str "pa"), ("c", .str "pc")]
      [("a", .str "f1a"), ("c", .str "pc"), ("b", .str "f1b")]
      [("a", .str "f1a"), ("c", .str "pc"), ("b", .str "f2b")]
      [strField "a" "f1a", strField "b" "f1b"] [strField "b" "f2b"]
      (by decide) (by decide) "b"
  · exact clone_derive_characterization
      [("a", .str "pa"), ("c", .str "pc")]
      [("a", .str "f1a"), ("c", .str "pc"), ("b", .str "f1b")]
      [("a", .str "f1a"), ("c", .str "pc"), ("b", .str "f2b")]
      [strField "a" "f1a", strField "b" "f1b"] [strField "b" "f2b"]
      (by decide) (by decide) "c"

/-- A map containing, at some key, a label-prefixed entry whose value
fails the string assertion makes the label scan panic. -/
theorem badLabel_of_getVal (m : FieldMap) (k : String) (v : GoDyn)
    (hk : getVal m k = some v) (hl : isLabelKey k = true)
    (hs : valAsString v = none) : badLabel m = true := by
  induction m with
  | nil => simp [getVal] at hk
  | cons kv rest ih =>
    unfold getVal at hk
    by_cases h : kv.1 = k
    · rw [if_pos h] at hk
      have hv : kv.2 = v := by injection hk
      simp [badLabel, List.any_cons, h, hl, hv, hs]
    · rw [if_neg h] at hk
      simp [badLabel, List.any_cons] at ih ⊢
      exact Or.inr (ih hk)

/-- C1 (amended): a `labels.`-prefixed payload key holding a non-string
value makes `Core.Write` abort with the interface-conversion panic of the
`v.(string)` assertion: the write does not complete, the label is neither
silently dropped nor miscoded, and nothing is delivered — but the failure
is a panic, not an error value returned to the caller (the source's only
`return` statement returns `nil`). -/
theorem write_bad_label_panics (c : Core) (ze : Entry) (fs : List Field)
    (p : FieldMap) (k : String) (v : GoDyn)
    (hp : clone c.fields fs = .ok p) (hk : getVal p k = some v)
    (hl : isLabelKey k = true) (hs : valAsString v = none) :
    coreWrite c ze fs = .error interfaceConversionPanic := by
  have hk1 : ¬("stack" = k) := by
    intro he
    rw [← he] at hl
    exact absurd hl (by decide)
  have hk2 : ¬("message" = k) := by
    intro he
    rw [← he] at hl
    exact absurd hl (by decide)
  have hv2 : getVal (paddedPayload ze p) k = some v := by
    unfold paddedPayload
    rw [getVal_upsert, if_neg hk2]
    split
    · exact hk
    · rw [getVal_upsert, if_neg hk1]
      exact hk
  have hb := badLabel_of_getVal _ _ _ hv2 hl hs
  unfold coreWrite
  rw [hp]
  simp only [hb, Bool.true_or, if_true]

/-- A `zap.Bool("labels.env", true)` field: a label key paired with a
non-string value. -/
def badLabelField : Field :=
  { Key := "labels.env", Ftype := .boolTy, Integer := 1, Strv := "", Iface := .nilIface }

/-- C1 counterexample: on a payload pairing the label key `labels.env`
with the boolean `true`, `Core.Write` aborts with a panic — it never
reaches its `return nil`, so no error value is returned to the caller,
contradicting the claim that the failure is a reported error returned
through `Write`'s error result. -/
theorem write_bad_label_no_error_returned :
    coreWrite plainCore (mkEntry 0 "m") [badLabelField] = .error interfaceConversionPanic ∧
    (coreWrite plainCore (mkEntry 0 "m") [badLabelField]).isOk = false := by
  constructor
  · decide
  · decide

/-- Witness for C1 (amended) at a concrete bad-label input. -/
theorem write_bad_label_panics_witness :
    coreWrite plainCore (mkEntry 2 "x") [badLabelField] = .error interfaceConversionPanic :=
  write_bad_label_panics plainCore (mkEntry 2 "x") [badLabelField]
    [("labels.env", .boolean true)] "labels.env" (.boolean true)
    (by decide) (by decide) (by decide) (by decide)

/-- C9: whenever `Core.Write` terminates normally it returns `nil`: the
function body's only `return` statement is `return nil`, so every `ok`
outcome carries no error value. -/
theorem write_returns_nil (c : Core) (ze : Entry) (fs : List Field) (r : WriteOutput)
    (h : coreWrite c ze fs = .ok r) : r.returned = none := by
  unfold coreWrite at h
  cases hcl : clone c.fields fs with
  | error e => rw [hcl] at h; cases h
  | ok p =>
    rw [hcl] at h
    dsimp only at h
    cases hb : badLabel (paddedPayload ze p) || badHTTP (paddedPayload ze p) with
    | true => rw [hb] at h; cases h
    | false =>
      rw [hb] at h
      simp only [Bool.false_eq_true, if_false] at h
      cases h
      rfl

/-- Witness for C9: a concrete write terminates normally with a `nil`
error result. -/
theorem write_returns_nil_witness :
    coreWrite plainCore (mkEntry 0 "w") [] = .ok
      { entry := { Timestamp := 0, Severity := gclInfo,
                   Payload := [("message", .str "w")], LogName := "", Labels := [],
                   HTTPRequest := none, InsertID := "", SourceLocation := none },
        returned := none } ∧
    ({ entry := { Timestamp := 0, Severity := gclInfo,
                  Payload := [("message", .str "w")], LogName := "", Labels := [],
                  HTTPRequest := none, InsertID := "", SourceLocation := none },
       returned := none } : WriteOutput).returned = none :=
  ⟨by decide, write_returns_nil plainCore (mkEntry 0 "w") [] _ (by decide)⟩

/-- C4: the default severity mapping carries the seven documented pairs
(debug→Debug, info→Info, warn→Warning, error→Error, dpanic/panic/fatal→
Critical); whenever the entry's level is present in the core's (possibly
custom) mapping, every delivered entry carries exactly the mapped
severity — so with the default mapping each of the seven levels gets its
documented severity; a level absent from the mapping makes `Core.Write`
use `gcl.Default`; and whether a write succeeds never depends on the
severity mapping, so an unmapped level cannot fail the write. -/
theorem severity_mapping_spec :
    (DefaultSeverityMapping DebugLevel = some gclDebug ∧
     DefaultSeverityMapping InfoLevel = some gclInfo ∧
     DefaultSeverityMapping WarnLevel = some gclWarning ∧
     DefaultSeverityMapping ErrorLevel = some gclError ∧
     DefaultSeverityMapping DPanicLevel = some gclCritical ∧
     DefaultSeverityMapping PanicLevel = some gclCritical ∧
     DefaultSeverityMapping FatalLevel = some gclCritical) ∧
    (∀ (c : Core) (ze : Entry) (fs : List Field) (r : WriteOutput) (s : Int),
      c.SeverityMapping ze.Level = some s → coreWrite c ze fs = .ok r →
      r.entry.Severity = s) ∧
    (∀ (c : Core) (ze : Entry) (fs : List Field) (r : WriteOutput),
      c.SeverityMapping ze.Level = none → coreWrite c ze fs = .ok r →
      r.entry.Severity = gclDefault) ∧
    (∀ (c : Core) (m2 : Int → Option Int) (ze : Entry) (fs : List Field),
      (coreWrite { SeverityMapping := m2, MinLevel := c.MinLevel, fields := c.fields }
          ze fs).isOk
        = (coreWrite c ze fs).isOk) := by
  refine ⟨by decide, ?_, ?_, ?_⟩
  · intro c ze fs r s hm h
    unfold coreWrite at h
    cases hcl : clone c.fields fs with
    | error e => rw [hcl] at h; cases h
    | ok p =>
      rw [hcl] at h
      dsimp only at h
      cases hb : badLabel (paddedPayload ze p) || badHTTP (paddedPayload ze p) with
      | true => rw [hb] at h; cases h
      | false =>
        rw [hb] at h
        simp only [Bool.false_eq_true, if_false] at h
        cases h
        simp [mkGclEntry, hm]
  · intro c ze fs r hm h
    unfold coreWrite at h
    cases hcl : clone c.fields fs with
    | error e => rw [hcl] at h; cases h
    | ok p =>
      rw [hcl] at h
      dsimp only at h
      cases hb : badLabel (paddedPayload ze p) || badHTTP (paddedPayload ze p) with
      | true => rw [hb] at h; cases h
      | false =>
        rw [hb] at h
        simp only [Bool.false_eq_true, if_false] at h
        cases h
        simp [mkGclEntry, hm]
  · intro c m2 ze fs
    unfold coreWrite
    cases hcl : clone c.fields fs with
    | error e => rfl
    | ok p =>
      dsimp only
      cases hb : badLabel (paddedPayload ze p) || badHTTP (paddedPayload ze p) with
      | true => rfl
      | false => rfl

/-- Witness for C4: under the default mapping a warn-level write carries
`gcl.Warning`, and a concrete core whose mapping is empty gets
`gcl.Default` severity while the write still succeeds. -/
theorem severity_mapping_spec_witness :
    coreWrite plainCore (mkEntry 1 "s") [] = .ok
      { entry := { Timestamp := 0, Severity := gclWarning,
                   Payload := [("message", .str "s")], LogName := "", Labels := [],
                   HTTPRequest := none, InsertID := "", SourceLocation := none },
        returned := none } ∧
    ({ entry := { Timestamp := 0, Severity := gclWarning,
                  Payload := [("message", .str "s")], LogName := "", Labels := [],
                  HTTPRequest := none, InsertID := "", SourceLocation := none },
       returned := none } : WriteOutput).entry.Severity = gclWarning ∧
    coreWrite { SeverityMapping := fun _ => none, MinLevel := 0, fields := [] }
      (mkEntry 0 "s") [] = .ok
      { entry := { Timestamp := 0, Severity := gclDefault,
                   Payload := [("message", .str "s")], LogName := "", Labels := [],
                   HTTPRequest := none, InsertID := "", SourceLocation := none },
        returned := none } ∧
    ({ entry := { Timestamp := 0, Severity := gclDefault,
                  Payload := [("message", .str "s")], LogName := "", Labels := [],
                  HTTPRequest := none, InsertID := "", SourceLocation := none },
       returned := none } : WriteOutput).entry.Severity = gclDefault ∧
    DefaultSeverityMapping WarnLevel = some gclWarning :=
  ⟨by decide,
   severity_mapping_spec.2.1 plainCore (mkEntry 1 "s") [] _ gclWarning
     (by decide) (by decide),
   by decide,
   severity_mapping_spec.2.2.1 { SeverityMapping := fun _ => none, MinLevel := 0, fields := [] }
     (mkEntry 0 "s") [] _ (by decide) (by decide),
   severity_mapping_spec.1.2.2.1⟩

/-- C5 (amended): `Tee` assigns the Stackdriver core the minimum level
enabled by the base core, so the two children always share one
threshold; the composite (`zapcore.NewTee`) is enabled at a level iff
some child is, which for a threshold base collapses to the base's own
threshold; an entry is delivered to the Stackdriver core exactly at the
levels it enables.  Hence a debug entry is accepted and delivered iff
the base core enables debug — composing a warn-threshold base never
yields a debug-enabled composite. -/
theorem tee_threshold_follows_base (t : Int) (h1 : -1 ≤ t) (h2 : t ≤ 5) :
    teeMinLevel (thresholdCore t) = t ∧
    (teeGc (thresholdCore t)).MinLevel = t ∧
    (∀ l : Int, teeEnabled (thresholdCore t) (teeGc (thresholdCore t)) l = decide (t ≤ l)) ∧
    (∀ l : Int, gcDelivers (teeGc (thresholdCore t)) l = decide (t ≤ l)) := by
  have hm : teeMinLevel (thresholdCore t) = t := by
    interval_cases t <;> decide
  refine ⟨hm, ?_, ?_, ?_⟩
  · unfold teeGc
    exact hm
  · intro l
    have hm2 : teeMinLevel { enabled := fun l : Int => decide (t ≤ l) } = t := hm
    simp [teeEnabled, coreEnabled, teeGc, thresholdCore, hm2]
  · intro l
    unfold gcDelivers coreEnabled teeGc
    dsimp only
    rw [hm]

/-- C5 counterexample: composing (via `Tee`) a base core enabled at warn
gives the Stackdriver core `MinLevel` warn, not debug; the composite is
not enabled at debug and a debug entry is not delivered — the claimed
configuration (warn base with a debug Stackdriver child accepting debug)
is not what `Tee` produces. -/
theorem tee_warn_base_rejects_debug :
    (teeGc (thresholdCore 1)).MinLevel = 1 ∧
    coreEnabled (teeGc (thresholdCore 1)) (-1) = false ∧
    teeEnabled (thresholdCore 1) (teeGc (thresholdCore 1)) (-1) = false ∧
    gcDelivers (teeGc (thresholdCore 1)) (-1) = false := by decide

/-- Witness for C5 (amended): with a debug-enabled base the composite
accepts a debug entry and delivers it to the Stackdriver core. -/
theorem tee_threshold_follows_base_witness :
    teeMinLevel (thresholdCore (-1)) = -1 ∧
    teeEnabled (thresholdCore (-1)) (teeGc (thresholdCore (-1))) (-1) = true ∧
    gcDelivers (teeGc (thresholdCore (-1))) (-1) = true :=
  ⟨(tee_threshold_follows_base (-1) (by decide) (by decide)).1,
   ((tee_threshold_follows_base (-1) (by decide) (by decide)).2.2.1 (-1)).trans (by decide),
   ((tee_threshold_follows_base (-1) (by decide) (by decide)).2.2.2 (-1)).trans (by decide)⟩

/-- C6: writing an entry with fields `labels.env = "prod"`,
`labels.tier = "backend"`, `user = "alice"` yields labels
`env = prod, tier = backend` (each label key the suffix after
`labels.`) and payload `message = <msg>, user = alice`: no `labels.*`
key remains in the payload and the message lands under `message`;
moreover a caller field named `message` (second conjunct) is overwritten
by the entry's message, producing the identical record. -/
theorem write_label_extraction (msg : String) :
    coreWrite plainCore (mkEntry 0 msg)
        [strField "labels.env" "prod", strField "labels.tier" "backend",
         strField "user" "alice"]
      = .ok { entry := { Timestamp := 0, Severity := gclInfo,
                         Payload := [("user", .str "alice"), ("message", .str msg)],
                         LogName := "", Labels := [("env", "prod"), ("tier", "backend")],
                         HTTPRequest := none, InsertID := "", SourceLocation := none },
              returned := none } ∧
    coreWrite plainCore (mkEntry 0 msg)
        [strField "labels.env" "prod", strField "labels.tier" "backend",
         strField "user" "alice", strField "message" "evil"]
      = .ok { entry := { Timestamp := 0, Severity := gclInfo,
                         Payload := [("user", .str "alice"), ("message", .str msg)],
                         LogName := "", Labels := [("env", "prod"), ("tier", "backend")],
                         HTTPRequest := none, InsertID := "", SourceLocation := none },
              returned := none } :=
  ⟨rfl, rfl⟩

/-- C7: classifying the field any zap integer constructor of any width
builds from an in-range value yields exactly that numeric value at the
stated width — no truncation, and neither sign nor magnitude within the
original width is lost. -/
theorem int_field_roundtrip (w : IntWidth) (k : String) (v : Int) (h : inRange w v) :
    classify (mkIntField w k v) = .ok (some (widthVal w v)) := by
  cases w <;>
  · simp only [inRange] at h
    simp only [classify, mkIntField, widthFieldType, widthVal, toS, toU]
    norm_num at h ⊢
    omega

/-- Witness for C7 at the largest uint64 value. -/
theorem int_field_roundtrip_witness :
    classify (mkIntField .u64 "k" 18446744073709551615)
      = .ok (some (widthVal .u64 18446744073709551615)) :=
  int_field_roundtrip .u64 "k" 18446744073709551615 ⟨by decide, by decide⟩

/-- C8: the header `105445aa7843bc8bf206b120001000/0;o=1` with project
`my-project` produces the trace field
`projects/my-project/traces/105445aa7843bc8bf206b120001000`, an empty
span id (the span `0` is normalized away), and a sampled field that
classifies to `true`. -/
theorem trace_context_scenario :
    deconstructXCloudTraceContext "105445aa7843bc8bf206b120001000/0;o=1"
      = ("105445aa7843bc8bf206b120001000", "", true) ∧
    (addCloudLoggingFields "105445aa7843bc8bf206b120001000" "" true "my-project").1.Strv
      = "projects/my-project/traces/105445aa7843bc8bf206b120001000" ∧
    (addCloudLoggingFields "105445aa7843bc8bf206b120001000" "" true "my-project").2.1.Strv
      = "" ∧
    classify (addCloudLoggingFields "105445aa7843bc8bf206b120001000" "" true "my-project").2.2
      = .ok (some (.boolean true)) := by
  refine ⟨?_, ?_, ?_, ?_⟩ <;> decide

/-- The field `zap.Float64("x", 1.5)` builds: zap stores the IEEE-754
bit pattern of 1.5, which is 4609434218613702656. -/
def floatBugField : Field :=
  { Key := "x", Ftype := .float64Ty, Integer := 4609434218613702656, Strv := "",
    Iface := .nilIface }

/-- C2 (code bug): on the field `zap.Float64("x", 1.5)` the classifier
computes Go's numeric conversion `float64(f.Integer)` of the stored bit
pattern — the rational 4609434218613702656 — whereas decoding the bit
pattern (`math.Float64frombits`, second conjunct) gives the original
value 3/2; the two differ, so classification does not return the float
value the field was built from. -/
theorem float_field_bit_pattern_bug :
    classify floatBugField = .ok (some (.f64 ((4609434218613702656 : Nat) : Rat))) ∧
    float64FromBits 4609434218613702656 = (3 : Rat) / 2 ∧
    ((4609434218613702656 : Nat) : Rat) ≠ (3 : Rat) / 2 := by
  refine ⟨by decide, ?_, ?_⟩
  · simp only [float64FromBits]
    norm_num
  · norm_num

/-- C10 (amended): an `httpRequest` payload always produces a delivered
record carrying the decoded request descriptor — the write never fails
on it; a size string that fails to parse *syntactically* is replaced by
the zero value, an unparsable latency by the zero duration, and a
malformed URL by a nil request URL.  (A size that fails with a *range*
error is clamped, not zeroed — see the counterexample.) -/
theorem http_parse_errors_discarded (p : HTTPPayload) (msg : String) :
    coreWrite plainCore (mkEntry 0 msg) [httpField p]
      = .ok { entry := { Timestamp := 0, Severity := gclInfo,
                         Payload := [("message", .str msg)], LogName := "", Labels := [],
                         HTTPRequest := some (buildHTTPRequest p), InsertID := "",
                         SourceLocation := none },
              returned := none } ∧
    (parseInt64res p.RequestSize = .error .syn → (buildHTTPRequest p).RequestSize = 0) ∧
    (parseInt64res p.ResponseSize = .error .syn → (buildHTTPRequest p).ResponseSize = 0) ∧
    (parseDuration p.Latency = none → (buildHTTPRequest p).Latency = 0) ∧
    (urlParse p.RequestURL = none → (buildHTTPRequest p).URL = none) := by
  refine ⟨rfl, ?_, ?_, ?_, ?_⟩ <;> intro h <;>
    simp [buildHTTPRequest, parseInt64val, parseDurationVal, h]

/-- An HTTP payload whose request size exceeds the int64 range. -/
def rangePayload : HTTPPayload :=
  { RequestMethod := "GET", RequestURL := "/", RequestSize := "99999999999999999999",
    Status := 200, ResponseSize := "0", UserAgent := "", RemoteIP := "", ServerIP := "",
    Referer := "", Latency := "", CacheLookup := false, CacheHit := false,
    CacheValidatedWithOriginServer := false, CacheFillBytes := "", Protocol := "" }

/-- C10 counterexample: the request size
"99999999999999999999" fails to parse (range error), yet the value kept
in the record is the clamp 9223372036854775807, not the zero value the
claim states; the write still succeeds. -/
theorem http_range_clamp_not_zero :
    parseInt64res "99999999999999999999" = .error .rangePos ∧
    (buildHTTPRequest rangePayload).RequestSize = 9223372036854775807 ∧
    ¬(buildHTTPRequest rangePayload).RequestSize = 0 ∧
    (coreWrite plainCore (mkEntry 0 "m") [httpField rangePayload]).isOk = true := by
  refine ⟨by decide, by decide, by decide, by decide⟩

/-- An HTTP payload whose size, latency and URL strings are all
malformed. -/
def failPayload : HTTPPayload :=
  { RequestMethod := "GET", RequestURL := "%zz", RequestSize := "abc",
    Status := 500, ResponseSize := "12x", UserAgent := "", RemoteIP := "", ServerIP := "",
    Referer := "", Latency := "xyz", CacheLookup := false, CacheHit := false,
    CacheValidatedWithOriginServer := false, CacheFillBytes := "", Protocol := "" }

/-- Witness for C10 (amended): concrete malformed inputs yield the zero
sizes, zero latency and nil URL. -/
theorem http_parse_errors_discarded_witness :
    (buildHTTPRequest failPayload).RequestSize = 0 ∧
    (buildHTTPRequest failPayload).ResponseSize = 0 ∧
    (buildHTTPRequest failPayload).Latency = 0 ∧
    (buildHTTPRequest failPayload).URL = none :=
  ⟨(http_parse_errors_discarded failPayload "m").2.1 (by decide),
   (http_parse_errors_discarded failPayload "m").2.2.1 (by decide),
   (http_parse_errors_discarded failPayload "m").2.2.2.1 (by decide),
   (http_parse_errors_discarded failPayload "m").2.2.2.2 (by decide)⟩

end Zapgcl

